import Mathlib

/-!
Shallow embedding of the degenbounty agent (index.js variants) in Lean 4.

The program is a Node/Bun service that
* polls a contract for `ClaimCreated` events (`setupClaimListener`),
* verifies claims with an external scoring oracle (`verifyClaimWithAI`),
* creates a daily bounty (`createBounty` / `generateBountyIdea`),
* backfills missing on-chain identifiers (`findContractBountyId`,
  the `/current-bounty` handler).

External effects (RPC calls, HTTP fetches, database writes) are modelled by
explicit environment records whose fields are `Except`-valued oracles: an
`.error` value stands for a thrown JavaScript exception at that call site,
and database writes are returned as explicit lists of rows/operations.
-/

namespace Degenbounty

/-- JavaScript `parseInt(s)` restricted to base 10: skip leading whitespace,
read an optional sign, then a maximal run of decimal digits; `none` models
`NaN` (no digits found). `parseInt` stops at the first non-digit, so
`"8/10"` parses to `8` and `"N/A"` is `NaN`. -/
def jsParseInt (s : String) : Option Int :=
  let cs := s.toList.dropWhile (fun c => c.isWhitespace)
  let (sgn, cs') : Int × List Char :=
    match cs with
    | '-' :: rest => (-1, rest)
    | '+' :: rest => (1, rest)
    | _ => (1, cs)
  let ds := cs'.takeWhile (fun c => c.isDigit)
  if ds.isEmpty then none
  else some (sgn * (ds.foldl (fun a c => a * 10 + (c.toNat - 48)) 0 : Nat))

/-- JavaScript `score >= threshold` where `score` may be `NaN` (`none`):
any comparison against `NaN` is false, so a missing score rejects. -/
def scoreDecision (threshold : Int) (score : Option Int) : Bool :=
  match score with
  | none => false
  | some s => decide (s ≥ threshold)

/-- NFT token metadata as used by `verifyClaimWithAI`: only the `image`
field is read. `none` models an absent field; the empty string is falsy in
JavaScript, so `if (!imageUrl)` treats both as missing. -/
structure Metadata where
  image : Option String
  deriving Repr, DecidableEq

/-- Environment of one `verifyClaimWithAI` call. Each field stands for one
external call site in the source; `.error` means that call threw. -/
structure VerifyEnv where
  /-- `nftContract.tokenURI(claimId)` -/
  tokenURI : Except Unit String
  /-- `fetch(httpUrl)` + `metadataResponse.json()`, keyed by the gateway URL -/
  fetchMetadata : String → Except Unit Metadata
  /-- the scoring-oracle HTTP call: request carries the bounty title, the
  bounty description and the image URL; `.ok c` is the string
  `data.choices[0].message.content`, `.error` covers a network failure,
  malformed JSON, or a missing field on the response (a thrown TypeError) -/
  oracle : String → String → String → Except Unit String

/-- JavaScript `s.replace(pat, rep)` with a plain-string pattern replaces
only the first occurrence; helper on character lists. -/
def replaceFirstChars (pat rep : List Char) : List Char → List Char
  | [] => []
  | c :: cs =>
    if pat.isPrefixOf (c :: cs) then rep ++ (c :: cs).drop pat.length
    else c :: replaceFirstChars pat rep cs

/-- JavaScript `s.replace(pat, rep)` for a non-empty plain-string pattern. -/
def jsReplaceFirst (s pat rep : String) : String :=
  ⟨replaceFirstChars pat.toList rep.toList s.toList⟩

/-- `tokenURI.replace("ipfs://", "https://ipfs.io/ipfs/")`. -/
def ipfsToHttp (uri : String) : String :=
  jsReplaceFirst uri "ipfs://" "https://ipfs.io/ipfs/"

/-- `verifyClaimWithAI(bountyTitle, bountyDescription, claimId)` with the
admission threshold as a parameter: resolve the token URI, fetch the
metadata, reject when no usable image URL, ask the oracle, `parseInt` the
content and compare with the threshold. The whole body is wrapped in a
catch-all that returns `false`. -/
def verifyClaimWithAICore (threshold : Int) (env : VerifyEnv)
    (bountyTitle bountyDescription : String) : Bool :=
  match env.tokenURI with
  | .error _ => false
  | .ok uri =>
    match env.fetchMetadata (ipfsToHttp uri) with
    | .error _ => false
    | .ok md =>
      match md.image with
      | none => false
      | some imageUrl =>
        if imageUrl = "" then false
        else
          match env.oracle bountyTitle bountyDescription imageUrl with
          | .error _ => false
          | .ok content => scoreDecision threshold (jsParseInt content)

/-- The `src/unnamed/part_001` / `src/index.js` variant:
`const decision = score >= 7`. -/
def verifyClaimWithAI (env : VerifyEnv) (t d : String) : Bool :=
  verifyClaimWithAICore 7 env t d

/-- The `src/unnamed/part_000` variant: `const decision = score >= 9`. -/
def verifyClaimWithAIStrict (env : VerifyEnv) (t d : String) : Bool :=
  verifyClaimWithAICore 9 env t d

/-! ## Claim reconciliation loop (`setupClaimListener`) -/

/-- The destructured `event.args` of one `ClaimCreated` event. -/
structure ClaimEvent where
  id : Nat
  issuer : String
  bountyId : Nat
  bountyIssuer : String
  name : String
  description : String
  deriving Repr, DecidableEq

/-- The fields of `contract.bounties(bountyId)` that the listener reads. -/
structure BountyRecord where
  name : String
  description : String
  deriving Repr, DecidableEq

/-- Environment of one poll tick of `setupClaimListener`. Each field is one
external call site; `.error` models a thrown exception there. -/
structure PollEnv where
  /-- `wallet.address` of `new ethers.Wallet(CHAIN_CONFIG.privateKey, provider)` -/
  walletAddress : String
  /-- `provider.getBlockNumber()` -/
  getBlockNumber : Except Unit Nat
  /-- `contract.queryFilter("ClaimCreated", from, to)` -/
  queryFilter : Nat → Nat → Except Unit (List ClaimEvent)
  /-- `contract.bounties(bountyId)` -/
  bounties : Nat → Except Unit BountyRecord
  /-- the result of `verifyClaimWithAI(bounty.name, bounty.description, id)`;
  that function has a catch-all and always returns a boolean -/
  verify : BountyRecord → Nat → Bool
  /-- `contract.acceptClaim(bountyId, id)` followed by `tx.wait()` -/
  acceptClaim : Nat → Nat → Except Unit Unit

/-- Outcome of handling one event inside the `for` loop. Every constructor
corresponds to a control path that ends the iteration without escaping:
per-event and per-settlement exceptions are caught by the inner
`try/catch` blocks and only logged. -/
inductive ClaimAction where
  /-- ownership check failed: `continue`, nothing else runs for this event -/
  | skipped
  /-- `verifyClaimWithAI` returned false: no settlement attempted -/
  | rejected
  /-- `acceptClaim` + `tx.wait()` succeeded -/
  | accepted
  /-- `acceptClaim` or `tx.wait()` threw; caught by the inner `catch` -/
  | settlementFailed
  /-- `contract.bounties(bountyId)` threw; caught by the per-event `catch` -/
  | processingError
  deriving Repr, DecidableEq

/-- JavaScript `s.toLowerCase()` on the ASCII range (Ethereum addresses
are ASCII hex strings): map `Char.toLower` over the characters. -/
def jsToLowerCase (s : String) : String :=
  ⟨s.toList.map Char.toLower⟩

/-- The body of the `for (const event of events)` loop for one event:
skip when `bountyIssuer.toLowerCase() !== wallet.address.toLowerCase()`,
otherwise look the bounty up, verify, and on success attempt settlement.
Total: every exception inside is caught in the source. -/
def processEvent (env : PollEnv) (e : ClaimEvent) : ClaimAction :=
  if jsToLowerCase e.bountyIssuer ≠ jsToLowerCase env.walletAddress then
    .skipped
  else
    match env.bounties e.bountyId with
    | .error _ => .processingError
    | .ok bounty =>
      if env.verify bounty e.id then
        match env.acceptClaim e.bountyId e.id with
        | .ok _ => .accepted
        | .error _ => .settlementFailed
      else
        .rejected

/-- Observable result of one tick of the interval callback:
the value of `lastProcessedBlock` afterwards, the block range passed to
`queryFilter` when that call was made, and the action taken for each
fetched event, in order. -/
structure TickResult where
  cursor : Nat
  fetchedRange : Option (Nat × Nat)
  actions : List (ClaimEvent × ClaimAction)
  deriving Repr, DecidableEq

/-- One tick of the `setInterval` callback in `setupClaimListener`, given
the current `lastProcessedBlock` value `cursor`:
read the latest block (a throw aborts the tick via the outer `catch`),
do nothing when `latestBlock <= lastProcessedBlock`, otherwise fetch
`ClaimCreated` events in `[cursor+1, latest]` (a throw aborts the tick),
handle every event, and only then assign `lastProcessedBlock = latestBlock`
— the single assignment of the tick. -/
def pollTick (env : PollEnv) (cursor : Nat) : TickResult :=
  match env.getBlockNumber with
  | .error _ => ⟨cursor, none, []⟩
  | .ok latestBlock =>
    if latestBlock > cursor then
      match env.queryFilter (cursor + 1) latestBlock with
      | .error _ => ⟨cursor, some (cursor + 1, latestBlock), []⟩
      | .ok events =>
        ⟨latestBlock, some (cursor + 1, latestBlock),
          events.map (fun e => (e, processEvent env e))⟩
    else
      ⟨cursor, none, []⟩

/-- Number of settlement transactions submitted during a tick:
`acceptClaim` is called exactly on the `accepted` and `settlementFailed`
paths. -/
def settlementAttempts (r : TickResult) : Nat :=
  (r.actions.filter
    (fun p => p.2 = ClaimAction.accepted ∨ p.2 = ClaimAction.settlementFailed)).length

/-! ## Bounty issuance (`generateBountyIdea`, `createBounty`) -/

/-- A `{title, description}` pair as produced by the generative service or
the fallback list. -/
structure BountyContent where
  title : String
  description : String
  deriving Repr, DecidableEq

/-- One row inserted into the `bounties` table:
`INSERT INTO bounties (title, description[, contract_bounty_id])`. -/
structure DbRow where
  title : String
  description : String
  contractBountyId : Option String
  deriving Repr, DecidableEq

/-- The hardcoded `fallbackBounties` array of `generateBountyIdea` in
`src/unnamed/part_001`, in source order. -/
def fallbackBounties : List BountyContent :=
  [ ⟨"Top Hat Tea Time",
     "Share a photo of yourself enjoying tea while wearing a distinguished top hat in an unexpected location."⟩,
    ⟨"Formal Pet Portrait",
     "Dress your pet in a top hat and take a Victorian-style portrait photo."⟩,
    ⟨"Top Hat Trick Shot",
     "Capture a photo of yourself successfully landing a small object into a top hat from at least 10 feet away."⟩,
    ⟨"Historical Hat Recreation",
     "Recreate a famous historical photo or painting while wearing a top hat."⟩,
    ⟨"Top Hat Garden Party",
     "Host an impromptu garden party with at least 3 people wearing top hats, even if it\x27s in your living room."⟩,
    ⟨"Breakfast with Class",
     "Take a photo of your morning breakfast setup with a miniature top hat perched on something in the scene."⟩,
    ⟨"Top Hat Transportation",
     "Capture yourself wearing a top hat while using an unusual form of transportation (skateboard, unicycle, etc)."⟩,
    ⟨"Hat Stack Challenge",
     "Successfully balance and photograph at least 3 top hats stacked on your head."⟩,
    ⟨"Top Hat Wildlife",
     "Edit a top hat onto a photo you take of local wildlife (bird, squirrel, etc)."⟩,
    ⟨"Formal Fitness",
     "Share a photo of yourself exercising while wearing a top hat."⟩ ]

/-- The fallback branch of `generateBountyIdea` (its `catch` block), acting
on the module-level `usedFallbackIndices` set (modelled as a `Finset`, which
carries exactly the membership structure the code uses: `has`, `add`,
`clear`): filter the unused indices, reset the set when all were used, pick
one unused index, record it, return that entry. `Math.floor(Math.random()
* availableIndices.length)` is an arbitrary value in `[0, length)`; it is
modelled as `rand % availableIndices.length` with `rand` an arbitrary
natural number, which reaches the same set of indices. -/
def fallbackStep (used : Finset Nat) (rand : Nat) : BountyContent × Finset Nat :=
  let availableIndices :=
    (List.range fallbackBounties.length).filter (fun i => i ∉ used)
  let (availableIndices, used) :=
    if availableIndices.isEmpty then
      (List.range fallbackBounties.length, (∅ : Finset Nat))
    else
      (availableIndices, used)
  let randomIndex := availableIndices.getD (rand % availableIndices.length) 0
  (fallbackBounties.getD randomIndex ⟨"", ""⟩, insert randomIndex used)

/-- Environment of one `generateBountyIdea` call. -/
structure GenEnv where
  /-- the whole `try` block up to `JSON.parse(data.choices[0].message.content)`:
  `.ok` is the parsed `{title, description}`; `.error` means the database
  read, the HTTP call, or the JSON parsing threw -/
  aiContent : Except Unit BountyContent
  /-- the `Math.random()` draw used only when the fallback is taken -/
  rand : Nat

/-- `generateBountyIdea()`: on service success, insert the content as a row
with no contract id and return it without touching the used-index set;
on any failure, take the fallback branch and write nothing to the store.
Returns (content, new used-index set, rows inserted). -/
def generateBountyIdea (env : GenEnv) (used : Finset Nat) :
    BountyContent × Finset Nat × List DbRow :=
  match env.aiContent with
  | .ok bounty => (bounty, used, [⟨bounty.title, bounty.description, none⟩])
  | .error _ =>
    let (content, used') := fallbackStep used env.rand
    (content, used', [])

/-- `contract.interface.parseLog(log)` result: the listener only reads the
event `name` and `args.id`. -/
structure ParsedLog where
  name : String
  argId : Nat
  deriving Repr, DecidableEq

/-- The confirmation receipt of `tx.wait()` as read by `createBounty`:
`logs` holds each log's `parseLog` result, `none` for a log on which
`parseLog` threw (those are filtered out). -/
structure Receipt where
  logs : List (Option ParsedLog)
  blockNumber : Nat
  transactionHash : String
  deriving Repr, DecidableEq

/-- A `BountyCreated` event returned by
`contract.queryFilter(filter, blockNumber, blockNumber)`. -/
structure ChainEvent where
  transactionHash : String
  argId : Nat
  deriving Repr, DecidableEq

/-- Failure modes of `createBounty` (it rethrows from its `catch`). -/
inductive CreateError where
  /-- `createSoloBounty(...)` or `tx.wait()` threw -/
  | txFailed
  /-- the fallback `queryFilter` threw -/
  | pollFailed
  /-- `throw new Error("Bounty ID not found in transaction events")` -/
  | idNotFound
  deriving Repr, DecidableEq

/-- Environment of one `createBounty` call. -/
structure CreateEnv where
  gen : GenEnv
  /-- `contract.createSoloBounty(title, description, {value})` + `tx.wait()` -/
  txReceipt : Except Unit Receipt
  /-- `contract.queryFilter(contract.filters.BountyCreated(), b, b)` -/
  queryBountyCreated : Nat → Except Unit (List ChainEvent)

/-- `createBounty()` (the `src/unnamed/part_001` variant): generate content,
submit and confirm the creation transaction, extract the `BountyCreated`
event from the receipt logs — on success insert the draft with the
resolved id and return the id; otherwise poll the receipt block for a
`BountyCreated` event with the same transaction hash and return its id
(without any insert); if both fail, throw. Returns
(result, new used-index set, rows inserted into the store). -/
def createBounty (env : CreateEnv) (used : Finset Nat) :
    Except CreateError String × Finset Nat × List DbRow :=
  let (bountyContent, used', rows) := generateBountyIdea env.gen used
  match env.txReceipt with
  | .error _ => (.error .txFailed, used', rows)
  | .ok receipt =>
    let events := receipt.logs.filterMap id
    match events.find? (fun event => event.name = "BountyCreated") with
    | some bountyCreatedEvent =>
      let bountyId := toString bountyCreatedEvent.argId
      (.ok bountyId, used',
        rows ++ [⟨bountyContent.title, bountyContent.description, some bountyId⟩])
    | none =>
      match env.queryBountyCreated receipt.blockNumber with
      | .error _ => (.error .pollFailed, used', rows)
      | .ok chainEvents =>
        match chainEvents.find?
            (fun event => event.transactionHash = receipt.transactionHash) with
        | some event => (.ok (toString event.argId), used', rows)
        | none => (.error .idNotFound, used', rows)

/-! ## Identifier backfill (`findContractBountyId`, `/current-bounty`) -/

/-- Environment of the backfill scan: the read-only contract calls. -/
structure BackfillEnv where
  /-- `contract.bountyCounter()` -/
  bountyCounter : Except Unit Nat
  /-- `contract.bounties(i)` -/
  bounties : Nat → Except Unit BountyRecord

/-- The `for (let i = totalBounties - 1; i >= 0; i--)` loop of
`findContractBountyId`, called with `n = totalBounties` and checking index
`n - 1` first: a throwing lookup is caught and the loop `continue`s; the
first index (from the top) whose record matches title and description
exactly is returned. -/
def scanBounties (lookup : Nat → Except Unit BountyRecord)
    (title description : String) : Nat → Option Nat
  | 0 => none
  | n + 1 =>
    match lookup n with
    | .ok bounty =>
      if bounty.name = title ∧ bounty.description = description then some n
      else scanBounties lookup title description n
    | .error _ => scanBounties lookup title description n

/-- `findContractBountyId(title, description)`: read the total bounty
count, scan downward from `totalBounties - 1`, return the match as a
string, `null` when nothing matches or the counter read throws. -/
def findContractBountyId (env : BackfillEnv) (title description : String) :
    Option String :=
  match env.bountyCounter with
  | .error _ => none
  | .ok totalBounties =>
    (scanBounties env.bounties title description totalBounties).map toString

/-- A row of the `bounties` table as read back by `/current-bounty`
(`SELECT *, contract_bounty_id as bountyId`). -/
structure StoredBounty where
  id : Nat
  title : String
  description : String
  contract_bounty_id : Option String
  deriving Repr, DecidableEq

/-- JavaScript falsiness of the stored `contract_bounty_id` column:
`!latestBounty.contract_bounty_id` is true for `null` and for the empty
string. -/
def idFalsy : Option String → Bool
  | none => true
  | some s => s = ""

/-- One `UPDATE bounties SET contract_bounty_id = ? WHERE id = ?`. -/
structure UpdateOp where
  contractBountyId : String
  rowId : Nat
  deriving Repr, DecidableEq

/-- The backfill portion of the `/current-bounty` handler: when the stored
draft has no usable contract id, run `findContractBountyId` and, on a
truthy result, write it back with a single `UPDATE` and patch the
in-memory row. Returns (patched row, updates performed). -/
def currentBountyBackfill (env : BackfillEnv) (latestBounty : StoredBounty) :
    StoredBounty × List UpdateOp :=
  if idFalsy latestBounty.contract_bounty_id then
    match findContractBountyId env latestBounty.title latestBounty.description with
    | some contractId =>
      ({ latestBounty with contract_bounty_id := some contractId },
       [⟨contractId, latestBounty.id⟩])
    | none => (latestBounty, [])
  else
    (latestBounty, [])

/-! ## Whole-agent scheduling

The process runs one `setInterval` poll task and one `cron.schedule` daily
task. node-cron (v3) executes the scheduled function inside its own
try/catch and attaches a rejection handler to the returned promise
(emitting a task-failed event), so a rejected `createBounty()` is consumed
by the scheduler and neither cancels the interval timer nor future cron
fires; each trigger therefore runs to a total outcome. -/

/-- Mutable process state shared by the two tasks, plus the observable
trace of outcomes. -/
structure AgentState where
  /-- `lastProcessedBlock` -/
  cursor : Nat
  /-- `usedFallbackIndices` -/
  usedFallback : Finset Nat
  /-- outcome of each daily `createBounty()` run so far -/
  cronOutcomes : List (Except CreateError String)
  /-- trace of each poll tick so far -/
  tickTraces : List TickResult

/-- A firing of one of the two scheduled tasks, with the environment its
external calls will see. -/
inductive Trigger where
  | tick (env : PollEnv)
  | daily (env : CreateEnv)

/-- Whether a trigger is a poll tick. -/
def Trigger.isTick : Trigger → Bool
  | .tick _ => true
  | .daily _ => false

/-- Whether a trigger is a daily issuance. -/
def Trigger.isDaily : Trigger → Bool
  | .tick _ => false
  | .daily _ => true

/-- Execute one trigger against the process state. -/
def step (s : AgentState) : Trigger → AgentState
  | .tick env =>
    let r := pollTick env s.cursor
    { s with cursor := r.cursor, tickTraces := s.tickTraces ++ [r] }
  | .daily env =>
    let (result, used', _rows) := createBounty env s.usedFallback
    { s with usedFallback := used', cronOutcomes := s.cronOutcomes ++ [result] }

/-- Run a sequence of trigger firings. -/
def runAgent (s : AgentState) (ts : List Trigger) : AgentState :=
  ts.foldl step s

/-! ## Concrete instances used by the witnesses -/

/-- Repeated `generateBountyIdea()` calls in a process whose generative
service keeps failing (so every call takes the fallback branch), threading
the module-level `usedFallbackIndices` set; the `Math.random()` draws are
given as a list. Returns the contents in call order and the final set. -/
def iterateFallback (used : Finset Nat) : List Nat → List BountyContent × Finset Nat
  | [] => ([], used)
  | r :: rs =>
    let g := generateBountyIdea ⟨.error (), r⟩ used
    let rest := iterateFallback g.2.1 rs
    (g.1 :: rest.1, rest.2)

/-- A concrete environment in which evidence resolution succeeds and the
oracle answers with the fixed string `content`. -/
def oracleEnv (content : String) : VerifyEnv where
  tokenURI := .ok "ipfs://tok"
  fetchMetadata := fun _ => .ok ⟨some "https://img.example/x.png"⟩
  oracle := fun _ _ _ => .ok content

/-- An environment whose oracle always answers the non-numeric `"N/A"`. -/
def envNA : VerifyEnv where
  tokenURI := .ok "ipfs://tok"
  fetchMetadata := fun _ => .ok ⟨some "https://img.example/x.png"⟩
  oracle := fun _ _ _ => .ok "N/A"

/-- An environment whose token-URI read throws. -/
def envNoToken : VerifyEnv where
  tokenURI := .error ()
  fetchMetadata := fun _ => .ok ⟨some "https://img.example/x.png"⟩
  oracle := fun _ _ _ => .ok "8"

/-- A claim event on bounty 5, issued against this agent (addresses match
up to case). -/
def evOwned : ClaimEvent :=
  ⟨1, "0xDEF", 5, "0xABC", "claim-a", "first claim"⟩

/-- A claim event on the same bounty id with a different issuer. -/
def evOther : ClaimEvent :=
  ⟨2, "0xDEF", 5, "0xFFF", "claim-b", "second claim"⟩

/-- Poll environment whose height read throws. -/
def pollEnvErr : PollEnv :=
  ⟨"0xAbC", .error (), fun _ _ => .error (), fun _ => .error (),
    fun _ _ => false, fun _ _ => .error ()⟩

/-- Poll environment at height 105 whose event fetch throws. -/
def pollEnvQErr : PollEnv :=
  ⟨"0xAbC", .ok 105, fun _ _ => .error (), fun _ => .error (),
    fun _ _ => false, fun _ _ => .error ()⟩

/-- Poll environment at height 105 returning two events, one owned and one
foreign; the bounty lookup throws. -/
def pollEnvOk : PollEnv :=
  ⟨"0xAbC", .ok 105, fun _ _ => .ok [evOwned, evOther], fun _ => .error (),
    fun _ _ => false, fun _ _ => .error ()⟩

/-- Backfill environment: three bounties on the ledger, index 1 matching
`("T", "D")`, index 0 and 2 failing to look up. -/
def backfillEnvW : BackfillEnv where
  bountyCounter := .ok 3
  bounties := fun i => if i = 1 then .ok ⟨"T", "D"⟩ else .error ()

/-- A stored draft whose identifier was never resolved. -/
def storedRowW : StoredBounty := ⟨7, "T", "D", none⟩

/-- Receipt-path creation environment: the confirmation receipt carries a
parseable `BountyCreated` event with id 42. -/
def createEnvReceiptW : CreateEnv where
  gen := ⟨.ok ⟨"T", "D"⟩, 0⟩
  txReceipt := .ok ⟨[none, some ⟨"BountyCreated", 42⟩], 50, "0xhash"⟩
  queryBountyCreated := fun _ => .error ()

/-- Fallback-path creation environment: no receipt log parses to a
`BountyCreated` event, but polling the receipt block finds one whose
transaction hash matches the receipt. -/
def createEnvFallbackW : CreateEnv where
  gen := ⟨.ok ⟨"T", "D"⟩, 0⟩
  txReceipt := .ok ⟨[none], 50, "0xhash"⟩
  queryBountyCreated := fun _ => .ok [⟨"0xother", 9⟩, ⟨"0xhash", 42⟩]

/-- Creation environment that falls back to the local content list and
whose receipt carries the `BountyCreated` event. -/
def createEnvFallbackContentW : CreateEnv where
  gen := ⟨.error (), 0⟩
  txReceipt := .ok ⟨[some ⟨"BountyCreated", 42⟩], 50, "0xhash"⟩
  queryBountyCreated := fun _ => .error ()

/-- A creation environment whose transaction submission throws. -/
def createEnvTxFailW : CreateEnv where
  gen := ⟨.ok ⟨"T", "D"⟩, 0⟩
  txReceipt := .error ()
  queryBountyCreated := fun _ => .error ()

/-- Fresh process state: cursor 100, nothing used, empty traces. -/
def agentS0 : AgentState := ⟨100, ∅, [], []⟩

/-! # Verification of the specification claims -/

/-- When evidence resolution succeeds end to end and the oracle answers,
`verifyClaimWithAICore` is exactly the parsed-score threshold test. -/
theorem verifyCore_resolved (th : Int) (env : VerifyEnv) (t d uri : String)
    (md : Metadata) (img content : String)
    (h1 : env.tokenURI = .ok uri)
    (h2 : env.fetchMetadata (ipfsToHttp uri) = .ok md)
    (h3 : md.image = some img) (h4 : img ≠ "")
    (h5 : env.oracle t d img = .ok content) :
    verifyClaimWithAICore th env t d = scoreDecision th (jsParseInt content) := by
  unfold verifyClaimWithAICore
  rw [h1]
  simp only
  rw [h2]
  simp only
  rw [h3]
  simp only
  rw [if_neg h4, h5]

/-- C2: for every score returned by the scoring oracle, the admission
decision is `accepted = (score >= threshold)`: with the resolved evidence
and an oracle content that parses to score `s`, the part_001/index.js
variant decides `s >= 7` and the part_000 variant decides `s >= 9`; a
score equal to the threshold is accepted, one below is rejected. -/
theorem claim_C2 (env : VerifyEnv) (t d uri : String) (md : Metadata)
    (img content : String) (s : Int)
    (h1 : env.tokenURI = .ok uri)
    (h2 : env.fetchMetadata (ipfsToHttp uri) = .ok md)
    (h3 : md.image = some img) (h4 : img ≠ "")
    (h5 : env.oracle t d img = .ok content)
    (h6 : jsParseInt content = some s) :
    (verifyClaimWithAI env t d = decide (s ≥ 7) ∧
      verifyClaimWithAIStrict env t d = decide (s ≥ 9)) ∧
    (s = 7 → verifyClaimWithAI env t d = true) ∧
    (s = 6 → verifyClaimWithAI env t d = false) ∧
    (s = 9 → verifyClaimWithAIStrict env t d = true) ∧
    (s = 8 → verifyClaimWithAIStrict env t d = false) := by
  have e7 : verifyClaimWithAI env t d = decide (s ≥ 7) := by
    rw [verifyClaimWithAI, verifyCore_resolved 7 env t d uri md img content h1 h2 h3 h4 h5,
      h6, scoreDecision]
  have e9 : verifyClaimWithAIStrict env t d = decide (s ≥ 9) := by
    rw [verifyClaimWithAIStrict, verifyCore_resolved 9 env t d uri md img content h1 h2 h3 h4 h5,
      h6, scoreDecision]
  refine ⟨⟨e7, e9⟩, ?_, ?_, ?_, ?_⟩ <;> rintro rfl <;> simp [e7, e9]

/-- Witness for C2 at the boundary scores of both deployment variants. -/
theorem claim_C2_witness :
    verifyClaimWithAI (oracleEnv "7") "t" "d" = true ∧
    verifyClaimWithAI (oracleEnv "6") "t" "d" = false ∧
    verifyClaimWithAIStrict (oracleEnv "9") "t" "d" = true ∧
    verifyClaimWithAIStrict (oracleEnv "8") "t" "d" = false :=
  ⟨(claim_C2 (oracleEnv "7") "t" "d" "ipfs://tok" ⟨some "https://img.example/x.png"⟩
      "https://img.example/x.png" "7" 7 rfl rfl rfl (by decide) rfl (by decide)).2.1 rfl,
   (claim_C2 (oracleEnv "6") "t" "d" "ipfs://tok" ⟨some "https://img.example/x.png"⟩
      "https://img.example/x.png" "6" 6 rfl rfl rfl (by decide) rfl (by decide)).2.2.1 rfl,
   (claim_C2 (oracleEnv "9") "t" "d" "ipfs://tok" ⟨some "https://img.example/x.png"⟩
      "https://img.example/x.png" "9" 9 rfl rfl rfl (by decide) rfl (by decide)).2.2.2.1 rfl,
   (claim_C2 (oracleEnv "8") "t" "d" "ipfs://tok" ⟨some "https://img.example/x.png"⟩
      "https://img.example/x.png" "8" 8 rfl rfl rfl (by decide) rfl (by decide)).2.2.2.2 rfl⟩

/-- C3: the claim-verification function is fail-closed. Stated for
`verifyClaimWithAICore` with an arbitrary threshold, so it covers both
deployment variants: every evidence-resolution failure (thrown token-URI
read, thrown metadata fetch, missing image URL) decides `false`, an oracle
whose content never parses to a number (such as `"N/A"`) decides `false`,
and any `true` decision exhibits a resolved image and a parsed score at or
above the threshold â absence of a usable score never yields acceptance. -/
theorem claim_C3 :
    jsParseInt "N/A" = none ∧
    ∀ (th : Int) (env : VerifyEnv) (t d : String),
      (env.tokenURI = .error () → verifyClaimWithAICore th env t d = false) ∧
      (∀ uri, env.tokenURI = .ok uri →
        env.fetchMetadata (ipfsToHttp uri) = .error () →
        verifyClaimWithAICore th env t d = false) ∧
      (∀ uri md, env.tokenURI = .ok uri →
        env.fetchMetadata (ipfsToHttp uri) = .ok md → md.image = none →
        verifyClaimWithAICore th env t d = false) ∧
      ((∀ t' d' img c, env.oracle t' d' img = .ok c → jsParseInt c = none) →
        verifyClaimWithAICore th env t d = false) ∧
      (verifyClaimWithAICore th env t d = true →
        ∃ uri md img content s,
          env.tokenURI = .ok uri ∧
          env.fetchMetadata (ipfsToHttp uri) = .ok md ∧
          md.image = some img ∧ img ≠ "" ∧
          env.oracle t d img = .ok content ∧
          jsParseInt content = some s ∧ s ≥ th) := by
  refine ⟨by decide, fun th env t d => ⟨?_, ?_, ?_, ?_, ?_⟩⟩
  · intro h
    unfold verifyClaimWithAICore
    rw [h]
  · intro uri h1 h2
    unfold verifyClaimWithAICore
    rw [h1]
    simp only
    rw [h2]
  · intro uri md h1 h2 h3
    unfold verifyClaimWithAICore
    rw [h1]
    simp only
    rw [h2]
    simp only
    rw [h3]
  · intro hno
    unfold verifyClaimWithAICore
    split
    · rfl
    · split
      · rfl
      · split
        · rfl
        · split
          · rfl
          · split
            · rfl
            · rename_i content h5
              rw [hno _ _ _ content h5]
              rfl
  · intro hacc
    unfold verifyClaimWithAICore at hacc
    split at hacc
    · exact absurd hacc (by simp)
    · rename_i uri h1
      split at hacc
      · exact absurd hacc (by simp)
      · rename_i md h2
        split at hacc
        · exact absurd hacc (by simp)
        · rename_i img h3
          split at hacc
          · exact absurd hacc (by simp)
          · rename_i h4
            split at hacc
            · exact absurd hacc (by simp)
            · rename_i content h5
              unfold scoreDecision at hacc
              split at hacc
              · exact absurd hacc (by simp)
              · rename_i sc h6
                exact ⟨uri, md, img, content, sc, h1, h2, h3, h4, h5, h6,
                  of_decide_eq_true hacc⟩

/-- Witness for C3: an `"N/A"` oracle response and an unresolvable
evidence reference both decide `false` at threshold 7. -/
theorem claim_C3_witness :
    verifyClaimWithAICore 7 envNA "t" "d" = false ∧
    verifyClaimWithAICore 7 envNoToken "t" "d" = false :=
  ⟨(claim_C3.2 7 envNA "t" "d").2.2.2.1
      (fun _ _ _ c h => by injection h with h'; rw [← h']; decide),
   (claim_C3.2 7 envNoToken "t" "d").1 rfl⟩

/-- An event's handling ends at the ownership `continue` exactly when the
case-insensitive address comparison fails. -/
theorem processEvent_skipped_iff (env : PollEnv) (e : ClaimEvent) :
    processEvent env e = ClaimAction.skipped ↔
      jsToLowerCase e.bountyIssuer ≠ jsToLowerCase env.walletAddress := by
  unfold processEvent
  split
  · rename_i h
    simp [h]
  · rename_i h
    rw [not_not] at h
    split
    · simp [h]
    · split
      · split
        · simp [h]
        · simp [h]
      · simp [h]

/-- C4: an observed claim event is handed to the admission pipeline if and
only if its `bountyIssuer` equals the agent wallet address under
case-insensitive comparison; of two events with the same `bountyId` and
different issuers, only the matching one is processed, the other ends at
the `continue` with no further calls. -/
theorem claim_C4 (env : PollEnv) :
    (∀ e, processEvent env e ≠ ClaimAction.skipped ↔
        jsToLowerCase e.bountyIssuer = jsToLowerCase env.walletAddress) ∧
    (∀ e₁ e₂ : ClaimEvent, e₁.bountyId = e₂.bountyId →
      jsToLowerCase e₁.bountyIssuer = jsToLowerCase env.walletAddress →
      jsToLowerCase e₂.bountyIssuer ≠ jsToLowerCase env.walletAddress →
      processEvent env e₁ ≠ ClaimAction.skipped ∧
      processEvent env e₂ = ClaimAction.skipped) := by
  constructor
  · intro e
    simpa [not_not] using (processEvent_skipped_iff env e).not
  · intro e₁ e₂ _ h1 h2
    exact ⟨fun hc => (processEvent_skipped_iff env e₁).mp hc h1,
      (processEvent_skipped_iff env e₂).mpr h2⟩

/-- Witness for C4: of two same-bounty events, only the one whose issuer
matches the wallet address case-insensitively escapes the skip. -/
theorem claim_C4_witness :
    processEvent pollEnvOk evOwned ≠ ClaimAction.skipped ∧
    processEvent pollEnvOk evOther = ClaimAction.skipped :=
  (claim_C4 pollEnvOk).2 evOwned evOther rfl (by decide) (by decide)

/-- C1: the poll cursor is monotonically non-decreasing across ticks; a
failed height read or a failed range fetch aborts the tick with the cursor
unchanged and no partial commit; the cursor is assigned (once) to `latest`
exactly when the whole range `[cursor+1, latest]` was fetched, and then
every event of the fetched range carries a caught outcome. -/
theorem claim_C1 (env : PollEnv) (cursor : Nat) :
    cursor ≤ (pollTick env cursor).cursor ∧
    (env.getBlockNumber = .error () → pollTick env cursor = ⟨cursor, none, []⟩) ∧
    (∀ latest, env.getBlockNumber = .ok latest → cursor < latest →
      env.queryFilter (cursor + 1) latest = .error () →
      pollTick env cursor = ⟨cursor, some (cursor + 1, latest), []⟩) ∧
    (∀ latest events, env.getBlockNumber = .ok latest → cursor < latest →
      env.queryFilter (cursor + 1) latest = .ok events →
      pollTick env cursor =
        ⟨latest, some (cursor + 1, latest),
          events.map fun e => (e, processEvent env e)⟩) := by
  refine ⟨?_, ?_, ?_, ?_⟩
  · unfold pollTick
    cases env.getBlockNumber with
    | error u => simp
    | ok latest =>
      simp only
      by_cases h : latest > cursor
      · rw [if_pos h]
        cases env.queryFilter (cursor + 1) latest with
        | error u => simp
        | ok events => simpa using Nat.le_of_lt h
      · rw [if_neg h]
  · intro h
    unfold pollTick
    rw [h]
  · intro latest h1 h2 h3
    unfold pollTick
    rw [h1]
    simp only
    rw [if_pos h2, h3]
  · intro latest events h1 h2 h3
    unfold pollTick
    rw [h1]
    simp only
    rw [if_pos h2, h3]

/-- Witness for C1: a failing height read and a failing fetch both leave
the cursor at 100; a successful tick over `[101, 105]` commits 105 once
with both events handled; monotonicity at the successful tick. -/
theorem claim_C1_witness :
    pollTick pollEnvErr 100 = ⟨100, none, []⟩ ∧
    pollTick pollEnvQErr 100 = ⟨100, some (101, 105), []⟩ ∧
    pollTick pollEnvOk 100 =
      ⟨105, some (101, 105),
        [evOwned, evOther].map fun e => (e, processEvent pollEnvOk e)⟩ ∧
    100 ≤ (pollTick pollEnvOk 100).cursor :=
  ⟨(claim_C1 pollEnvErr 100).2.1 rfl,
   (claim_C1 pollEnvQErr 100).2.2.1 105 rfl (by decide) rfl,
   (claim_C1 pollEnvOk 100).2.2.2 105 [evOwned, evOther] rfl (by decide) rfl,
   (claim_C1 pollEnvOk 100).1⟩

/-- C5: a tick whose observed latest height is at or below the cursor
performs no fetch (`fetchedRange = none`), hands nothing to the pipeline
(`actions = []`), attempts zero settlements and leaves the cursor
unchanged. -/
theorem claim_C5 (env : PollEnv) (cursor latest : Nat)
    (h1 : env.getBlockNumber = .ok latest) (h2 : latest ≤ cursor) :
    pollTick env cursor = ⟨cursor, none, []⟩ ∧
    settlementAttempts (pollTick env cursor) = 0 := by
  have hres : pollTick env cursor = ⟨cursor, none, []⟩ := by
    unfold pollTick
    rw [h1]
    simp only
    rw [if_neg (by omega)]
  exact ⟨hres, by rw [hres]; rfl⟩

/-- Witness for C5: height 105 observed while the cursor is already at
200 â the tick is a no-op. -/
theorem claim_C5_witness :
    pollTick pollEnvQErr 200 = ⟨200, none, []⟩ ∧
    settlementAttempts (pollTick pollEnvQErr 200) = 0 :=
  claim_C5 pollEnvQErr 200 105 rfl (by decide)

/-- The downward scan returns the topmost index below `n` whose lookup
succeeds and matches, tolerating lookup failures above it. -/
theorem scanBounties_finds (lookup : Nat → Except Unit BountyRecord)
    (title desc : String) (j : Nat) (b : BountyRecord)
    (hj : lookup j = .ok b)
    (hmatch : b.name = title ∧ b.description = desc) :
    ∀ n, j < n →
      (∀ k, j < k → k < n →
        lookup k = .error () ∨
        ∀ b', lookup k = .ok b' → ¬(b'.name = title ∧ b'.description = desc)) →
      scanBounties lookup title desc n = some j := by
  intro n
  induction n with
  | zero => intro h _; exact absurd h (Nat.not_lt_zero j)
  | succ n ih =>
    intro hlt hothers
    unfold scanBounties
    by_cases hjn : j = n
    · subst hjn
      rw [hj]
      simp only
      rw [if_pos hmatch]
    · have hjn' : j < n := by omega
      cases hcase : lookup n with
      | error u =>
        simp only
        exact ih hjn' (fun k hk1 hk2 => hothers k hk1 (by omega))
      | ok b' =>
        simp only
        have hnm : ¬(b'.name = title ∧ b'.description = desc) := by
          rcases hothers n hjn' (Nat.lt_succ_self n) with h | h
          · rw [hcase] at h
            exact absurd h (by simp)
          · exact h b' hcase
        rw [if_neg hnm]
        exact ih hjn' (fun k hk1 hk2 => hothers k hk1 (by omega))

/-- C8: for a stored draft with no on-chain identifier and a ledger
holding an exact title+description match at index `j` below the total
bounty count, with every index above `j` failing to look up or failing to
match, the backfill scan returns `j` (scanning from `bountyCounter - 1`
downward, bounded by the count, continuing past lookup failures) and the
`/current-bounty` handler persists it with exactly one update. -/
theorem claim_C8 (env : BackfillEnv) (total j : Nat) (b : BountyRecord)
    (row : StoredBounty)
    (hc : env.bountyCounter = .ok total)
    (hj : j < total)
    (hb : env.bounties j = .ok b)
    (hn : b.name = row.title) (hd : b.description = row.description)
    (habove : ∀ k, j < k → k < total →
      env.bounties k = .error () ∨
      ∀ b', env.bounties k = .ok b' →
        ¬(b'.name = row.title ∧ b'.description = row.description))
    (hnull : row.contract_bounty_id = none) :
    findContractBountyId env row.title row.description = some (toString j) ∧
    currentBountyBackfill env row =
      ({ row with contract_bounty_id := some (toString j) },
        [⟨toString j, row.id⟩]) := by
  have hscan : scanBounties env.bounties row.title row.description total = some j :=
    scanBounties_finds env.bounties row.title row.description j b hb
      ⟨hn, hd⟩ total hj habove
  have hfind : findContractBountyId env row.title row.description = some (toString j) := by
    unfold findContractBountyId
    rw [hc]
    simp only
    rw [hscan]
    rfl
  refine ⟨hfind, ?_⟩
  have htrue : idFalsy row.contract_bounty_id = true := by rw [hnull]; rfl
  unfold currentBountyBackfill
  rw [htrue]
  simp only [if_true]
  rw [hfind]

/-- Witness for C8: the scan finds index 1 despite the lookup failure at
index 2 and persists it with a single update. -/
theorem claim_C8_witness :
    findContractBountyId backfillEnvW "T" "D" = some "1" ∧
    currentBountyBackfill backfillEnvW storedRowW =
      (⟨7, "T", "D", some "1"⟩, [⟨"1", 7⟩]) :=
  claim_C8 backfillEnvW 3 1 ⟨"T", "D"⟩ storedRowW rfl (by decide) rfl rfl rfl
    (fun k hk1 hk2 => by
      have hk : k = 2 := by omega
      subst hk
      exact Or.inl rfl)
    rfl

/-- Rows inserted by `generateBountyIdea` never carry a contract bounty
id: the service-success path inserts `(title, description)` only, and the
fallback path inserts nothing. -/
theorem generateBountyIdea_rows (genv : GenEnv) (used : Finset Nat) :
    ∀ row ∈ (generateBountyIdea genv used).2.2, row.contractBountyId = none := by
  unfold generateBountyIdea
  cases genv.aiContent with
  | ok c =>
    intro row hrow
    simp only [List.mem_singleton] at hrow
    subst hrow
    rfl
  | error u =>
    intro row hrow
    simp at hrow

/-- C6 counterexample: in the polling-fallback case the identifier 42 is
resolved and returned with no error, yet no inserted row carries it â the
draft is not persisted together with the identifier. -/
theorem claim_C6_counterexample :
    (createBounty createEnvFallbackW ∅).1 = .ok "42" ∧
    ∀ row ∈ (createBounty createEnvFallbackW ∅).2.2,
      row.contractBountyId ≠ some "42" := by
  refine ⟨rfl, ?_⟩
  decide

/-- C6 (amended): when the identifier is resolved from the confirmation
receipt's events, the draft is persisted together with it in the same
insert; when it is resolved only through the polling fallback (matching a
`BountyCreated` event by transaction hash), the identifier is returned and
no `BountyIdUnresolvedError` is raised, but every row persisted by the
operation still has a null identifier. -/
theorem claim_C6 (env : CreateEnv) (used : Finset Nat) :
    (∀ receipt ev, env.txReceipt = .ok receipt →
      (receipt.logs.filterMap id).find? (fun e => e.name = "BountyCreated") = some ev →
      (createBounty env used).1 = .ok (toString ev.argId) ∧
      DbRow.mk (generateBountyIdea env.gen used).1.title
          (generateBountyIdea env.gen used).1.description
          (some (toString ev.argId)) ∈ (createBounty env used).2.2) ∧
    (∀ receipt chainEvents ev, env.txReceipt = .ok receipt →
      (receipt.logs.filterMap id).find? (fun e => e.name = "BountyCreated") = none →
      env.queryBountyCreated receipt.blockNumber = .ok chainEvents →
      chainEvents.find? (fun e => e.transactionHash = receipt.transactionHash) = some ev →
      (createBounty env used).1 = .ok (toString ev.argId) ∧
      ∀ row ∈ (createBounty env used).2.2, row.contractBountyId = none) := by
  rcases hgen : generateBountyIdea env.gen used with ⟨c, u, r⟩
  constructor
  · intro receipt ev hr hfind
    unfold createBounty
    rw [hgen]
    simp only
    rw [hr]
    simp only
    rw [hfind]
    simp only
    exact ⟨by simp, by simp⟩
  · intro receipt chainEvents ev hr hfind hq hfx
    unfold createBounty
    rw [hgen]
    simp only
    rw [hr]
    simp only
    rw [hfind]
    simp only
    rw [hq]
    simp only
    rw [hfx]
    simp only
    refine ⟨by simp, ?_⟩
    intro row hrow
    have := generateBountyIdea_rows env.gen used
    rw [hgen] at this
    exact this row hrow

/-- Witness for C6 (amended) on both resolution paths. -/
theorem claim_C6_witness :
    ((createBounty createEnvReceiptW ∅).1 = .ok "42" ∧
      DbRow.mk "T" "D" (some "42") ∈ (createBounty createEnvReceiptW ∅).2.2) ∧
    ((createBounty createEnvFallbackW ∅).1 = .ok "42" ∧
      ∀ row ∈ (createBounty createEnvFallbackW ∅).2.2,
        row.contractBountyId = none) :=
  ⟨(claim_C6 createEnvReceiptW ∅).1
      ⟨[none, some ⟨"BountyCreated", 42⟩], 50, "0xhash"⟩
      ⟨"BountyCreated", 42⟩ rfl (by decide),
   (claim_C6 createEnvFallbackW ∅).2
      ⟨[none], 50, "0xhash"⟩ [⟨"0xother", 9⟩, ⟨"0xhash", 42⟩]
      ⟨"0xhash", 42⟩ rfl (by decide) rfl (by decide)⟩

/-- C10: with generative-service content and a receipt carrying the
`BountyCreated` event, one creation inserts two rows for the same bounty â
the `generateBountyIdea` row without a contract id and the `createBounty`
row with the resolved id; with fallback content, only the `createBounty`
row is inserted. -/
theorem claim_C10 (env : CreateEnv) (used : Finset Nat) (receipt : Receipt)
    (ev : ParsedLog)
    (hr : env.txReceipt = .ok receipt)
    (hfind : (receipt.logs.filterMap id).find?
      (fun e => e.name = "BountyCreated") = some ev) :
    (∀ content, env.gen.aiContent = .ok content →
      (createBounty env used).2.2 =
        [⟨content.title, content.description, none⟩,
         ⟨content.title, content.description, some (toString ev.argId)⟩]) ∧
    (env.gen.aiContent = .error () →
      (createBounty env used).2.2 =
        [⟨(fallbackStep used env.gen.rand).1.title,
          (fallbackStep used env.gen.rand).1.description,
          some (toString ev.argId)⟩]) := by
  constructor
  · intro content hai
    have hgen : generateBountyIdea env.gen used =
        (content, used, [⟨content.title, content.description, none⟩]) := by
      unfold generateBountyIdea
      rw [hai]
    unfold createBounty
    rw [hgen]
    simp only
    rw [hr]
    simp only
    rw [hfind]
    simp
  · intro hai
    rcases hfs : fallbackStep used env.gen.rand with ⟨c, u⟩
    have hgen : generateBountyIdea env.gen used = (c, u, []) := by
      unfold generateBountyIdea
      rw [hai]
      simp only
      rw [hfs]
    unfold createBounty
    rw [hgen]
    simp only
    rw [hr]
    simp only
    rw [hfind]
    simp only
    rfl

/-- Witness for C10: two rows on the generative path, one row on the
fallback-content path. -/
theorem claim_C10_witness :
    (createBounty createEnvReceiptW ∅).2.2 =
      [⟨"T", "D", none⟩, ⟨"T", "D", some "42"⟩] ∧
    (createBounty createEnvFallbackContentW ∅).2.2 =
      [⟨"Top Hat Tea Time",
        "Share a photo of yourself enjoying tea while wearing a distinguished top hat in an unexpected location.",
        some "42"⟩] :=
  ⟨(claim_C10 createEnvReceiptW ∅
      ⟨[none, some ⟨"BountyCreated", 42⟩], 50, "0xhash"⟩
      ⟨"BountyCreated", 42⟩ rfl (by decide)).1 ⟨"T", "D"⟩ rfl,
   (claim_C10 createEnvFallbackContentW ∅
      ⟨[some ⟨"BountyCreated", 42⟩], 50, "0xhash"⟩
      ⟨"BountyCreated", 42⟩ rfl (by decide)).2 rfl⟩

/-- Mapping each element to a pair with itself and projecting back is the
identity. -/
theorem map_fst_pair (f : ClaimEvent → ClaimAction) (l : List ClaimEvent) :
    (l.map fun e => (e, f e)).map Prod.fst = l := by
  induction l with
  | nil => rfl
  | cons a l ih => simp [ih]

/-- Trigger counts over a run: every trigger in the sequence is executed
and leaves exactly one recorded outcome, whatever the outcomes of earlier
triggers were. -/
theorem runAgent_counts (ts : List Trigger) : ∀ s : AgentState,
    (runAgent s ts).cronOutcomes.length =
      s.cronOutcomes.length + ts.countP Trigger.isDaily ∧
    (runAgent s ts).tickTraces.length =
      s.tickTraces.length + ts.countP Trigger.isTick := by
  induction ts with
  | nil =>
    intro s
    simp [runAgent]
  | cons t ts ih =>
    intro s
    have h1 : runAgent s (t :: ts) = runAgent (step s t) ts := rfl
    rw [h1]
    rcases ih (step s t) with ⟨ihc, iht⟩
    rw [ihc, iht]
    cases t with
    | tick env =>
      constructor
      · simp [step, List.countP_cons, Trigger.isDaily]
      · simp [step, List.countP_cons, Trigger.isTick]
        omega
    | daily env =>
      rcases hcb : createBounty env s.usedFallback with ⟨res, u2, r2⟩
      have hs : step s (Trigger.daily env) =
          { s with usedFallback := u2, cronOutcomes := s.cronOutcomes ++ [res] } := by
        unfold step
        simp only
        rw [hcb]
      rw [hs]
      constructor
      · simp [List.countP_cons, Trigger.isDaily]
        omega
      · simp [List.countP_cons, Trigger.isTick]

/-- C7: failures are isolated. Within one tick, every fetched event gets
an outcome (a per-claim pipeline failure is caught, the rest of the batch
is still processed, in order); a failing `createBounty` day leaves the
poll state untouched and records a logged outcome; and over any
interleaving of poll ticks and daily issuances every trigger is executed â
no per-claim or per-bounty failure stops the loop or future issuances. -/
theorem claim_C7 :
    (∀ (env : PollEnv) (cursor latest : Nat) (events : List ClaimEvent),
      env.getBlockNumber = .ok latest → cursor < latest →
      env.queryFilter (cursor + 1) latest = .ok events →
      (pollTick env cursor).actions.map Prod.fst = events ∧
      ∀ e ∈ events, (e, processEvent env e) ∈ (pollTick env cursor).actions) ∧
    (∀ (s : AgentState) (env : CreateEnv) (err : CreateError)
        (used' : Finset Nat) (rows : List DbRow),
      createBounty env s.usedFallback = (.error err, used', rows) →
      (step s (.daily env)).cursor = s.cursor ∧
      (step s (.daily env)).tickTraces = s.tickTraces ∧
      (step s (.daily env)).cronOutcomes = s.cronOutcomes ++ [.error err]) ∧
    (∀ (s : AgentState) (ts : List Trigger),
      (runAgent s ts).cronOutcomes.length =
        s.cronOutcomes.length + ts.countP Trigger.isDaily ∧
      (runAgent s ts).tickTraces.length =
        s.tickTraces.length + ts.countP Trigger.isTick) := by
  refine ⟨?_, ?_, fun s ts => runAgent_counts ts s⟩
  · intro env cursor latest events h1 h2 h3
    have hres : pollTick env cursor =
        ⟨latest, some (cursor + 1, latest),
          events.map fun e => (e, processEvent env e)⟩ := by
      unfold pollTick
      rw [h1]
      simp only
      rw [if_pos h2, h3]
    rw [hres]
    constructor
    · exact map_fst_pair _ events
    · intro e he
      exact List.mem_map_of_mem _ he
  · intro s env err used' rows h
    have hs : step s (Trigger.daily env) =
        { s with usedFallback := used', cronOutcomes := s.cronOutcomes ++ [Except.error err] } := by
      unfold step
      simp only
      rw [h]
    rw [hs]
    exact ⟨rfl, rfl, rfl⟩

/-- Witness for C7: a tick batch with a failing per-claim lookup still
yields outcomes for both events; a failing daily run leaves the cursor at
100; one failing daily followed by one tick records one outcome each. -/
theorem claim_C7_witness :
    ((pollTick pollEnvOk 100).actions.map Prod.fst = [evOwned, evOther]) ∧
    (step agentS0 (.daily createEnvTxFailW)).cursor = 100 ∧
    (runAgent agentS0 [.daily createEnvTxFailW, .tick pollEnvOk]).cronOutcomes.length = 1 ∧
    (runAgent agentS0 [.daily createEnvTxFailW, .tick pollEnvOk]).tickTraces.length = 1 :=
  ⟨(claim_C7.1 pollEnvOk 100 105 [evOwned, evOther] rfl (by decide) rfl).1,
   (claim_C7.2.1 agentS0 createEnvTxFailW .txFailed ∅ [⟨"T", "D", none⟩] rfl).1,
   (claim_C7.2.2 agentS0 [.daily createEnvTxFailW, .tick pollEnvOk]).1,
   (claim_C7.2.2 agentS0 [.daily createEnvTxFailW, .tick pollEnvOk]).2⟩

/-- A failing-service `generateBountyIdea` call is exactly one
`fallbackStep` with no store write. -/
theorem generateBountyIdea_fail (r : Nat) (used : Finset Nat) :
    generateBountyIdea ⟨.error (), r⟩ used =
      ((fallbackStep used r).1, (fallbackStep used r).2, []) := by
  rcases hfs : fallbackStep used r with ⟨c, u⟩
  unfold generateBountyIdea
  simp only
  rw [hfs]

/-- Unfolding one failing-service call in the iteration. -/
theorem iterateFallback_cons (used : Finset Nat) (r : Nat) (rs : List Nat) :
    iterateFallback used (r :: rs) =
      ((fallbackStep used r).1 :: (iterateFallback (fallbackStep used r).2 rs).1,
        (iterateFallback (fallbackStep used r).2 rs).2) := by
  conv_lhs => rw [iterateFallback]
  rw [generateBountyIdea_fail]

/-- When the unused-index list is exhausted, `fallbackStep` resets and
draws from the full index range. -/
theorem fallbackStep_eq_reset (used : Finset Nat) (rand : Nat)
    (hemp : ((List.range fallbackBounties.length).filter
      (fun i => i ∉ used)).isEmpty = true) :
    fallbackStep used rand =
      (fallbackBounties.getD
        ((List.range fallbackBounties.length).getD
          (rand % (List.range fallbackBounties.length).length) 0) ⟨"", ""⟩,
       insert
        ((List.range fallbackBounties.length).getD
          (rand % (List.range fallbackBounties.length).length) 0)
        (∅ : Finset Nat)) := by
  simp only [fallbackStep]
  rw [hemp]
  rfl

/-- When unused indices remain, `fallbackStep` draws from them and keeps
the used set. -/
theorem fallbackStep_eq_avail (used : Finset Nat) (rand : Nat)
    (hemp : ((List.range fallbackBounties.length).filter
      (fun i => i ∉ used)).isEmpty = false) :
    fallbackStep used rand =
      (fallbackBounties.getD
        (((List.range fallbackBounties.length).filter (fun i => i ∉ used)).getD
          (rand % ((List.range fallbackBounties.length).filter
            (fun i => i ∉ used)).length) 0) ⟨"", ""⟩,
       insert
        (((List.range fallbackBounties.length).filter (fun i => i ∉ used)).getD
          (rand % ((List.range fallbackBounties.length).filter
            (fun i => i ∉ used)).length) 0)
        used) := by
  simp only [fallbackStep]
  rw [hemp]
  rfl

/-- The random draw picks an element of a non-empty candidate list. -/
theorem pick_mem (avail : List Nat) (rand : Nat) (hne : avail ≠ []) :
    avail.getD (rand % avail.length) 0 ∈ avail := by
  have hlt : rand % avail.length < avail.length :=
    Nat.mod_lt _ (List.length_pos.mpr hne)
  rw [List.getD_eq_getElem?_getD, List.getElem?_eq_getElem hlt, Option.getD_some]
  exact List.getElem_mem hlt

/-- In-bounds `getD` on the fallback list returns one of its entries. -/
theorem getD_mem_of_lt (n : Nat) (h : n < fallbackBounties.length) :
    fallbackBounties.getD n ⟨"", ""⟩ ∈ fallbackBounties := by
  rw [List.getD_eq_getElem?_getD, List.getElem?_eq_getElem h, Option.getD_some]
  exact List.getElem_mem h

/-- While fewer than all 10 indices are used, `fallbackStep` picks an
index that is in range and not yet used, returns its entry and records
it. -/
theorem fallbackStep_choose (used : Finset Nat) (rand : Nat)
    (hsub : used ⊆ Finset.range 10) (hcard : used.card < 10) :
    ∃ idx, idx < 10 ∧ idx ∉ used ∧
      fallbackStep used rand =
        (fallbackBounties.getD idx ⟨"", ""⟩, insert idx used) := by
  have hex : ∃ i, i ∈ (List.range fallbackBounties.length).filter
      (fun i => i ∉ used) := by
    have hne : (Finset.range 10 \ used).Nonempty := by
      rw [← Finset.card_pos, Finset.card_sdiff hsub, Finset.card_range]
      omega
    rcases hne with ⟨i, hi⟩
    rw [Finset.mem_sdiff, Finset.mem_range] at hi
    refine ⟨i, List.mem_filter.mpr ⟨List.mem_range.mpr ?_, decide_eq_true hi.2⟩⟩
    show i < fallbackBounties.length
    exact hi.1
  have hempf : ((List.range fallbackBounties.length).filter
      (fun i => i ∉ used)).isEmpty = false :=
    List.isEmpty_eq_false_iff_exists_mem.mpr hex
  have hne : (List.range fallbackBounties.length).filter (fun i => i ∉ used) ≠ [] :=
    List.ne_nil_of_mem hex.choose_spec
  have hmem := pick_mem _ rand hne
  have hmf := List.mem_filter.mp hmem
  refine ⟨_, ?_, of_decide_eq_true hmf.2, fallbackStep_eq_avail used rand hempf⟩
  exact List.mem_range.mp hmf.1

/-- Whatever the state of the used set, `fallbackStep` always returns an
entry of the fallback list (the `(K+1)`-th call remains a valid
`{title, description}` pair). -/
theorem fallbackStep_valid (used : Finset Nat) (rand : Nat) :
    (fallbackStep used rand).1 ∈ fallbackBounties := by
  cases hemp : ((List.range fallbackBounties.length).filter
      (fun i => i ∉ used)).isEmpty with
  | true =>
    rw [fallbackStep_eq_reset used rand hemp]
    apply getD_mem_of_lt
    exact List.mem_range.mp (pick_mem (List.range fallbackBounties.length) rand (by decide))
  | false =>
    rw [fallbackStep_eq_avail used rand hemp]
    apply getD_mem_of_lt
    have hne : (List.range fallbackBounties.length).filter (fun i => i ∉ used) ≠ [] :=
      List.isEmpty_eq_false.mp hemp
    exact List.mem_range.mp (List.mem_filter.mp (pick_mem _ rand hne)).1

/-- The 10 fallback titles are pairwise distinct. -/
theorem fallbackTitles_inj : ∀ x, x < 10 → ∀ y, y < 10 →
    (fallbackBounties.getD x ⟨"", ""⟩).title =
      (fallbackBounties.getD y ⟨"", ""⟩).title → x = y := by decide

/-- Across a run of failing-service calls that does not exhaust the list,
the chosen indices are distinct, fresh, in range, and accumulate into the
used set. -/
theorem iterateFallback_spec (rs : List Nat) : ∀ used : Finset Nat,
    used ⊆ Finset.range 10 → used.card + rs.length ≤ 10 →
    ∃ idxs : List Nat,
      (iterateFallback used rs).1 =
        idxs.map (fun i => fallbackBounties.getD i ⟨"", ""⟩) ∧
      idxs.length = rs.length ∧
      idxs.Nodup ∧
      (∀ i ∈ idxs, i < 10 ∧ i ∉ used) ∧
      (iterateFallback used rs).2 = used ∪ idxs.toFinset := by
  induction rs with
  | nil =>
    intro used hsub hcard
    exact ⟨[], rfl, rfl, List.nodup_nil, by simp, by simp [iterateFallback]⟩
  | cons r rs ih =>
    intro used hsub hcard
    simp only [List.length_cons] at hcard
    obtain ⟨idx, hidx10, hidxnot, hstep⟩ :=
      fallbackStep_choose used r hsub (by omega)
    obtain ⟨idxs, hmap, hlen, hnodup, hmem, hfin⟩ :=
      ih (insert idx used)
        (Finset.insert_subset_iff.mpr ⟨Finset.mem_range.mpr hidx10, hsub⟩)
        (by
          rw [Finset.card_insert_of_not_mem hidxnot]
          omega)
    refine ⟨idx :: idxs, ?_, ?_, ?_, ?_, ?_⟩
    · rw [iterateFallback_cons, hstep]
      simp only [List.map_cons]
      rw [hmap]
    · simp [hlen]
    · exact List.nodup_cons.mpr
        ⟨fun hmem' => (hmem idx hmem').2 (Finset.mem_insert_self idx used), hnodup⟩
    · intro i hi
      rcases List.mem_cons.mp hi with hcase | hcase
      · subst hcase
        exact ⟨hidx10, hidxnot⟩
      · exact ⟨(hmem i hcase).1,
          fun hin => (hmem i hcase).2 (Finset.mem_insert_of_mem hin)⟩
    · rw [iterateFallback_cons, hstep]
      simp only
      rw [hfin, List.toFinset_cons]
      ext a
      simp only [Finset.mem_union, Finset.mem_insert, List.mem_toFinset]
      tauto

/-- C9: with the generative service failing throughout, 10 successive
fallback calls (any random draws) return 10 pairwise-distinct titles, and
an 11th call â after the used-index set has been cleared on exhaustion â
still returns an entry of the fallback list, a valid
`{title, description}` pair. -/
theorem claim_C9 (rs : List Nat) (hlen : rs.length = 10) :
    ((iterateFallback ∅ rs).1.map (fun c => c.title)).Nodup ∧
    (iterateFallback ∅ rs).1.length = 10 ∧
    ∀ rand, (fallbackStep (iterateFallback ∅ rs).2 rand).1 ∈ fallbackBounties := by
  obtain ⟨idxs, hmap, hlen', hnodup, hmem, hfin⟩ :=
    iterateFallback_spec rs ∅ (by simp) (by simp [hlen])
  refine ⟨?_, ?_, fun rand => fallbackStep_valid _ rand⟩
  · rw [hmap, List.map_map]
    refine List.Nodup.map_on ?_ hnodup
    intro x hx y hy hxy
    exact fallbackTitles_inj x (hmem x hx).1 y (hmem y hy).1 hxy
  · rw [hmap]
    simp [hlen', hlen]

/-- Witness for C9 at ten zero draws followed by an 11th zero draw. -/
theorem claim_C9_witness :
    ((iterateFallback ∅ [0, 0, 0, 0, 0, 0, 0, 0, 0, 0]).1.map
      (fun c => c.title)).Nodup ∧
    (iterateFallback ∅ [0, 0, 0, 0, 0, 0, 0, 0, 0, 0]).1.length = 10 ∧
    ∀ rand,
      (fallbackStep (iterateFallback ∅ [0, 0, 0, 0, 0, 0, 0, 0, 0, 0]).2 rand).1
        ∈ fallbackBounties :=
  claim_C9 [0, 0, 0, 0, 0, 0, 0, 0, 0, 0] rfl

end Degenbounty
